import Mathlib

/-!
# Employment-Management-App: verification of the request-handling logic

Shallow embedding of the two server variants of the repository:

* `src/server.js` — the base CRUD variant (no authentication);
* `src/unnamed/part_000` — the variant with passport sessions, a role
  guard (`checkRole`), password reset and login.

The database is modelled as a list of `Employee` rows (the `employees`
relation); each handler is a pure function from the database (and, where
relevant, the request's session state and body) to a `Response`, paired
with the database after the statement ran.  The model covers the
non-erroring query path: `DatabaseError → 500` is outside the embedded
state.  JavaScript details that the handlers rely on are embedded
explicitly: `parseIntJS` models `parseInt` with an undefined radix
(leading whitespace, sign, `0x` prefix, longest digit prefix), and
`truthy` models the `!field` test on JSON string fields (absent and
empty string are falsy).
-/

namespace EmpApp

/-- A row of `public.employees`.  `SELECT *` returns every column;
columns the application never sets for a row are `none` (SQL NULL).
`id` and `employee_id` are distinct columns: the auth variant queries
`WHERE id = $1` in some handlers and `WHERE employee_id = $1` in
others. -/
structure Employee where
  id : Int
  name : String
  email : String
  department : String
  role : Option String := none
  employee_id : Option Int := none
  password : Option String := none
  deriving Repr, DecidableEq

/-- Response bodies as the handlers build them (`res.json` /
`res.send`). -/
inductive Body where
  | rows : List Employee → Body
  | row : Employee → Body
  | error : String → Body
  | msg : String → Body
  | msgUser : String → Employee → Body
  | deleted : String → Employee → Body
  | text : String → Body
  deriving Repr, DecidableEq

/-- An HTTP response: status code plus body. -/
structure Response where
  status : Nat
  body : Body
  deriving Repr, DecidableEq

/-- Does the serialized body carry a (non-NULL) password digest?  The
handlers serialize rows verbatim, so a row's `password` column appears
in the JSON exactly when the stored row carries one. -/
def bodyHasPassword : Body → Bool
  | .rows es => es.any (fun e => e.password.isSome)
  | .row e => e.password.isSome
  | .msgUser _ e => e.password.isSome
  | .deleted _ e => e.password.isSome
  | _ => false

/-! ## JavaScript primitives used by the handlers -/

/-- Whitespace skipped by `parseInt`. -/
def isJsSpace (c : Char) : Bool :=
  c == ' ' || c == '\t' || c == '\n' || c == '\r' || c == '\x0b' || c == '\x0c'

/-- Value of a digit in the given radix, if it is one. -/
def digitVal (radix : Nat) (c : Char) : Option Nat :=
  let v : Nat :=
    if '0' ≤ c ∧ c ≤ '9' then c.toNat - '0'.toNat
    else if 'a' ≤ c ∧ c ≤ 'z' then c.toNat - 'a'.toNat + 10
    else if 'A' ≤ c ∧ c ≤ 'Z' then c.toNat - 'A'.toNat + 10
    else 99
  if v < radix then some v else none

/-- `parseInt(s)` with the radix argument undefined, as the handlers
call it: skip leading whitespace, read an optional sign, detect a
`0x`/`0X` prefix (radix 16, else 10), then take the longest prefix of
digits of that radix; `none` models `NaN` (no digits). -/
def parseIntJS (s : String) : Option Int :=
  let cs := s.toList.dropWhile isJsSpace
  let (sign, cs1) : Int × List Char :=
    match cs with
    | '-' :: rest => (-1, rest)
    | '+' :: rest => (1, rest)
    | _ => (1, cs)
  let (radix, cs2) : Nat × List Char :=
    match cs1 with
    | '0' :: 'x' :: rest => (16, rest)
    | '0' :: 'X' :: rest => (16, rest)
    | _ => (10, cs1)
  let digits := cs2.takeWhile (fun c => (digitVal radix c).isSome)
  if digits.isEmpty then none
  else some (sign * (digits.foldl (fun acc c => acc * radix + (digitVal radix c).getD 0) (0 : Nat) : Nat))

/-- JavaScript truthiness of a JSON string field, as tested by
`!name || !email || !department`: absent (`undefined`) and the empty
string are falsy. -/
def truthy : Option String → Bool
  | none => false
  | some s => s ≠ ""

/-! ## Base variant: `src/server.js` -/

/-- `GET /employees` (`getAllEmployees`): `SELECT * FROM
public.employees`, `res.json(employees.rows)`. -/
def getAllEmployees (db : List Employee) : Response :=
  ⟨200, .rows db⟩

/-- `GET /employees/:id` (`getEmployeeById`): parse the id, 400 on
`NaN`; `SELECT * ... WHERE id = $1`; 404 on zero rows, else
`res.json(employee.rows[0])`. -/
def getEmployeeById (db : List Employee) (idParam : String) : Response :=
  match parseIntJS idParam with
  | none => ⟨400, .error "Invalid employee ID"⟩
  | some n =>
    match db.filter (fun e => e.id == n) with
    | [] => ⟨404, .error "Employee not found"⟩
    | e :: _ => ⟨200, .row e⟩

/-- Request body of `POST /employees` and `PUT /employees/:id`. -/
structure EmployeeBody where
  name : Option String
  email : Option String
  department : Option String
  deriving Repr, DecidableEq

/-- `POST /employees`: reject with 400 if any field is falsy; else
`INSERT ... RETURNING *` creates a row whose id is the next value of
the database's id sequence (`nextId`) and whose other columns are
NULL, and the handler answers 201 with that row. -/
def postEmployees (db : List Employee) (nextId : Int) (b : EmployeeBody) :
    Response × List Employee :=
  if !(truthy b.name) || !(truthy b.email) || !(truthy b.department) then
    (⟨400, .error "Missing required fields"⟩, db)
  else
    let e : Employee :=
      { id := nextId, name := b.name.getD "", email := b.email.getD "",
        department := b.department.getD "" }
    (⟨201, .row e⟩, db ++ [e])

/-- The column assignments of `UPDATE public.employees SET name = $1,
email = $2, department = $3`. -/
def applyUpdate (b : EmployeeBody) (e : Employee) : Employee :=
  { e with name := b.name.getD "", email := b.email.getD "",
           department := b.department.getD "" }

/-- `PUT /employees/:id`: 400 on `NaN` id, then 400 on any falsy field
(before touching the database); else `UPDATE ... WHERE id = $4
RETURNING *`; 404 when no row matched, else 200 with the updated
row. -/
def putEmployee (db : List Employee) (idParam : String) (b : EmployeeBody) :
    Response × List Employee :=
  match parseIntJS idParam with
  | none => (⟨400, .error "Invalid ID format"⟩, db)
  | some n =>
    if !(truthy b.name) || !(truthy b.email) || !(truthy b.department) then
      (⟨400, .error "Missing required fields"⟩, db)
    else
      match (db.filter (fun e => e.id == n)).map (applyUpdate b) with
      | [] => (⟨404, .error "Employee not found"⟩, db)
      | r :: _ =>
        (⟨200, .row r⟩,
         db.map (fun e => if e.id == n then applyUpdate b e else e))

/-- `DELETE /employees/:id`: 400 on `NaN` id; `DELETE ... WHERE id = $1
RETURNING *`; 404 when no row matched, else 200 with a message and the
deleted row, the matching rows removed from the table. -/
def deleteEmployee (db : List Employee) (idParam : String) :
    Response × List Employee :=
  match parseIntJS idParam with
  | none => (⟨400, .error "Invalid ID format"⟩, db)
  | some n =>
    match db.filter (fun e => e.id == n) with
    | [] => (⟨404, .error "Employee not found"⟩, db)
    | r :: _ =>
      (⟨200, .deleted "deleted successfully" r⟩,
       db.filter (fun e => !(e.id == n)))

/-! ## Auth variant: `src/unnamed/part_000` -/

/-- The request-scoped session state passport exposes to the handlers:
`req.isAuthenticated()` and `req.user` (the deserialized employee row,
when present). -/
structure AuthState where
  isAuthenticated : Bool
  user : Option Employee
  deriving Repr, DecidableEq

/-- The condition tested by `checkRole(role)`:
`req.isAuthenticated() && req.user && req.user.role === role`.
`===` between SQL NULL (`null`) and a string is false. -/
def checkRoleAllows (role : String) (st : AuthState) : Bool :=
  st.isAuthenticated && st.user.any (fun u => u.role == some role)

/-- The `checkRole(role)` middleware: `none` means the guard passed and
the chain continues; otherwise it responds `403 Forbidden`. -/
def checkRole (role : String) (st : AuthState) : Option Response :=
  if checkRoleAllows role st then none
  else some ⟨403, .text "Forbidden"⟩

/-- `GET /employees/:id` in the auth variant: parse the id (400 on
`NaN`); `SELECT * ... WHERE id = $1`; 404 on zero rows; else serve the
row to an authenticated admin or manager, or to an authenticated user
whose own `employee_id` equals the requested id, and 403 to everyone
else. -/
def getEmployeeByIdAuth (db : List Employee) (st : AuthState)
    (idParam : String) : Response :=
  match parseIntJS idParam with
  | none => ⟨400, .error "Invalid employee ID"⟩
  | some n =>
    match db.filter (fun e => e.id == n) with
    | [] => ⟨404, .error "Employee not found"⟩
    | e :: _ =>
      if st.isAuthenticated &&
          st.user.any (fun u => u.role == some "admin" || u.role == some "manager") then
        ⟨200, .row e⟩
      else if st.isAuthenticated && st.user.any (fun u => u.employee_id == some n) then
        ⟨200, .row e⟩
      else
        ⟨403, .text "Forbidden"⟩

/-- `POST /reset-password` (after the `checkRole('admin')` guard
passed): hash the new password (hashing is external; `digest` is its
result) and run `UPDATE public.employees SET password = $1 WHERE
employee_id = $2`; answer 200 with a success message whatever the
update matched. -/
def resetPassword (db : List Employee) (digest : String) (employeeId : Int) :
    Response × List Employee :=
  (⟨200, .msg "Password reset successfully"⟩,
   db.map (fun e =>
     if e.employee_id == some employeeId then { e with password := some digest }
     else e))

/-- Modelled from the spec: the body of the `LocalStrategy` verify
callback is elided in the source (`// Rest of the code...`); only the
lookup `SELECT * FROM public.employees WHERE id = $1` is present.  Per
the spec, the callback verifies the supplied password against the
stored digest and yields no user on an unknown identifier or a digest
mismatch, without distinguishing the two.  `verify` is the external
`verify(password, digest) -> bool` primitive. -/
def localStrategyVerify (db : List Employee) (verify : String → String → Bool)
    (employeeId : Int) (password : String) : Option Employee :=
  match db.filter (fun e => e.id == employeeId) with
  | [] => none
  | e :: _ =>
    match e.password with
    | none => none
    | some digest => if verify password digest then some e else none

/-- `POST /login`: run the local strategy; when it yields no user,
answer `401 {message: 'Authentication failed'}`; on success, log the
user in and answer 200 with the user row. -/
def loginHandler (db : List Employee) (verify : String → String → Bool)
    (employeeId : Int) (password : String) : Response :=
  match localStrategyVerify db verify employeeId password with
  | none => ⟨401, .msg "Authentication failed"⟩
  | some u => ⟨200, .msgUser "Login successful" u⟩

/-! ## Theorems for the claims -/

/-- A stored row that carries a password digest (as every row does
after a password reset). -/
def pwRow : Employee :=
  { id := 1, name := "Alice", email := "a@x.com", department := "Eng",
    role := some "admin", employee_id := some 1,
    password := some "bcrypt-digest" }

/-- Claim C1, counterexample: the handlers serialize `SELECT *` rows
verbatim, so on a database whose single row stores a password digest,
the successful `GET /employees` response body does contain the
password-digest field — refuting the claim that it never appears. -/
theorem C1_counterexample :
    ¬ ((getAllEmployees [pwRow]).status = 200 →
       bodyHasPassword (getAllEmployees [pwRow]).body = false) := by
  decide

/-- Claim C1 (amended): successful employee responses return the
stored row verbatim, so the password-digest field appears in the
response exactly when the stored row carries one; it is never stripped
by the application. -/
theorem C1_amended_ok (db : List Employee) (s : String) (n : Int)
    (e : Employee) (rest : List Employee)
    (hp : parseIntJS s = some n)
    (hf : db.filter (fun x => x.id == n) = e :: rest) :
    (getEmployeeById db s).status = 200 ∧
      bodyHasPassword (getEmployeeById db s).body = e.password.isSome ∧
      (getAllEmployees db).status = 200 ∧
      bodyHasPassword (getAllEmployees db).body
        = db.any (fun x => x.password.isSome) := by
  simp [getEmployeeById, getAllEmployees, hp, hf, bodyHasPassword]

/-- Witness for C1's amended theorem at a concrete database. -/
theorem C1_amended_witness :
    (getEmployeeById [pwRow] "1").status = 200 ∧
      bodyHasPassword (getEmployeeById [pwRow] "1").body
        = pwRow.password.isSome ∧
      (getAllEmployees [pwRow]).status = 200 ∧
      bodyHasPassword (getAllEmployees [pwRow]).body
        = [pwRow].any (fun x => x.password.isSome) :=
  C1_amended_ok [pwRow] "1" 1 pwRow [] (by decide) (by decide)

/-- Claim C2: the role guard is an exact string-equality check:
`checkRole R` passes exactly when the request is authenticated and the
attached employee's role equals `R`; otherwise it responds 403
Forbidden; in particular an authenticated admin fails a
`checkRole("manager")` guard with 403. -/
theorem C2_ok (R : String) (st : AuthState) :
    (checkRole R st = none ↔
       st.isAuthenticated = true ∧ ∃ u, st.user = some u ∧ u.role = some R) ∧
    (checkRole R st ≠ none →
       checkRole R st = some ⟨403, .text "Forbidden"⟩) ∧
    (∀ u : Employee, u.role = some "admin" →
       checkRole "manager" ⟨true, some u⟩ = some ⟨403, .text "Forbidden"⟩) := by
  refine ⟨?_, ?_, ?_⟩
  · unfold checkRole checkRoleAllows
    cases hu : st.user <;> simp [hu]
  · unfold checkRole
    intro h
    by_cases hc : checkRoleAllows R st = true
    · simp [hc] at h
    · simp [hc]
  · intro u hu
    unfold checkRole checkRoleAllows
    simp [hu]

/-- Witness for C2 at a concrete admin user and the manager guard. -/
theorem C2_witness :
    checkRole "manager"
        ⟨true, some { id := 2, name := "Root", email := "r@x.com",
                      department := "IT", role := some "admin" }⟩
      = some ⟨403, .text "Forbidden"⟩ :=
  (C2_ok "manager"
      ⟨true, some { id := 2, name := "Root", email := "r@x.com",
                    department := "IT", role := some "admin" }⟩).2.2 _ rfl

/-- Claim C3: an admin's password reset answers 200 with the success
message for every id, existing or not; when no employee carries that
`employee_id`, the update is a silent no-op (the table is unchanged)
and still no NotFound is produced. -/
theorem C3_ok (db : List Employee) (digest : String) (i : Int) :
    (resetPassword db digest i).1 = ⟨200, .msg "Password reset successfully"⟩ ∧
    ((∀ e ∈ db, e.employee_id ≠ some i) → (resetPassword db digest i).2 = db) := by
  refine ⟨rfl, fun h => ?_⟩
  unfold resetPassword
  simp only []
  conv_rhs => rw [← List.map_id db]
  refine List.map_congr_left fun e he => ?_
  simp [h e he]

/-- Witness for C3: a reset aimed at an absent id on a concrete table
still answers 200 and leaves the table unchanged. -/
theorem C3_witness :
    (resetPassword [{ id := 1, name := "A", email := "a@x.com",
                      department := "D", employee_id := some 1 }] "digest" 2).1
        = ⟨200, .msg "Password reset successfully"⟩ ∧
    (resetPassword [{ id := 1, name := "A", email := "a@x.com",
                      department := "D", employee_id := some 1 }] "digest" 2).2
        = [{ id := 1, name := "A", email := "a@x.com",
             department := "D", employee_id := some 1 }] :=
  ⟨(C3_ok _ "digest" 2).1, (C3_ok _ "digest" 2).2 (by decide)⟩

/-- Claim C4: a login attempt with an unknown identifier and one with
a known identifier but wrong password produce the very same response:
401 with the one authentication-failure body. -/
theorem C4_ok (db : List Employee) (verify : String → String → Bool)
    (i1 : Int) (p1 : String) (i2 : Int) (p2 : String)
    (e : Employee) (rest : List Employee)
    (h1 : db.filter (fun x => x.id == i1) = [])
    (h2 : db.filter (fun x => x.id == i2) = e :: rest)
    (h3 : ∀ d, e.password = some d → verify p2 d = false) :
    loginHandler db verify i1 p1 = ⟨401, .msg "Authentication failed"⟩ ∧
    loginHandler db verify i2 p2 = loginHandler db verify i1 p1 := by
  have hu : loginHandler db verify i1 p1 = ⟨401, .msg "Authentication failed"⟩ := by
    simp [loginHandler, localStrategyVerify, h1]
  refine ⟨hu, ?_⟩
  rw [hu]
  unfold loginHandler localStrategyVerify
  rw [h2]
  cases hd : e.password with
  | none => simp [hd]
  | some d => simp [hd, h3 d hd]

/-- Witness for C4: on a one-row table, an unknown-id attempt and a
wrong-password attempt get identical 401 responses. -/
theorem C4_witness :
    loginHandler [pwRow] (fun p d => p == d) 2 "anything"
        = ⟨401, .msg "Authentication failed"⟩ ∧
    loginHandler [pwRow] (fun p d => p == d) 1 "wrong"
        = loginHandler [pwRow] (fun p d => p == d) 2 "anything" :=
  C4_ok [pwRow] (fun p d => p == d) 2 "anything" 1 "wrong" pwRow []
    (by decide) (by decide) (fun d hd => by cases hd; decide)

/-- Claim C5: `GET /employees/:id` answers 400 on a non-numeric id,
404 when zero rows match the parsed id, and 200 with the matching row
when exactly one row matches. -/
theorem C5_ok (db : List Employee) (s : String) :
    (parseIntJS s = none →
      getEmployeeById db s = ⟨400, .error "Invalid employee ID"⟩) ∧
    (∀ n, parseIntJS s = some n →
      (db.filter (fun e => e.id == n) = [] →
        getEmployeeById db s = ⟨404, .error "Employee not found"⟩) ∧
      (∀ e, db.filter (fun x => x.id == n) = [e] →
        getEmployeeById db s = ⟨200, .row e⟩)) := by
  refine ⟨fun h => by simp [getEmployeeById, h], fun n hn => ⟨?_, ?_⟩⟩
  · intro hf
    simp [getEmployeeById, hn, hf]
  · intro e hf
    simp [getEmployeeById, hn, hf]

/-- Witness for C5 on a one-row table: the stored id is served with
200 and the row itself. -/
theorem C5_witness :
    getEmployeeById [pwRow] "1" = ⟨200, .row pwRow⟩ :=
  ((C5_ok [pwRow] "1").2 1 (by decide)).2 pwRow (by decide)

/-- A request body whose fields are all present but whose name is the
empty string — falsy in JavaScript without being absent. -/
def emptyNameBody : EmployeeBody :=
  { name := some "", email := some "a@x.com", department := some "Eng" }

/-- Claim C6, counterexample: a body whose three required fields are
all present, with `name` the empty string, is rejected with 400 by
`POST /employees` — refuting the claim that 400 happens only when a
field is absent and that 201 follows otherwise. -/
theorem C6_counterexample :
    (emptyNameBody.name ≠ none ∧ emptyNameBody.email ≠ none ∧
      emptyNameBody.department ≠ none) ∧
    (postEmployees [] 1 emptyNameBody).1.status = 400 := by
  decide

/-- Claim C6 (amended): `POST /employees` answers 400 exactly when one
of the required fields is absent or JavaScript-falsy (the empty
string), and otherwise 201 with the newly created row carrying the
generated id, the row being appended to the table. -/
theorem C6_amended_ok (db : List Employee) (nextId : Int) (b : EmployeeBody) :
    ((truthy b.name = false ∨ truthy b.email = false ∨ truthy b.department = false) →
      (postEmployees db nextId b).1 = ⟨400, .error "Missing required fields"⟩ ∧
      (postEmployees db nextId b).2 = db) ∧
    (truthy b.name = true → truthy b.email = true → truthy b.department = true →
      (postEmployees db nextId b).1 =
        ⟨201, .row { id := nextId, name := b.name.getD "",
                     email := b.email.getD "",
                     department := b.department.getD "" }⟩ ∧
      (postEmployees db nextId b).2 =
        db ++ [{ id := nextId, name := b.name.getD "",
                 email := b.email.getD "",
                 department := b.department.getD "" }]) := by
  constructor
  · intro h
    have ht : (!(truthy b.name) || !(truthy b.email) || !(truthy b.department)) = true := by
      rcases h with h | h | h <;> simp [h]
    simp [postEmployees, ht]
  · intro h1 h2 h3
    simp [postEmployees, h1, h2, h3]

/-- Witness for C6's amended theorem: a fully truthy body is created
with status 201 and the generated id. -/
theorem C6_amended_witness :
    (postEmployees [] 1 ⟨some "Alice", some "a@x.com", some "Eng"⟩).1 =
      ⟨201, .row { id := 1, name := "Alice", email := "a@x.com",
                   department := "Eng" }⟩ ∧
    (postEmployees [] 1 ⟨some "Alice", some "a@x.com", some "Eng"⟩).2 =
      [{ id := 1, name := "Alice", email := "a@x.com", department := "Eng" }] :=
  (C6_amended_ok [] 1 ⟨some "Alice", some "a@x.com", some "Eng"⟩).2
    (by decide) (by decide) (by decide)

/-- Claim C7: a `PUT /employees/:id` request missing a required field
is answered 400 and the table is left exactly as it was — no partial
write. -/
theorem C7_ok (db : List Employee) (s : String) (b : EmployeeBody)
    (h : b.name = none ∨ b.email = none ∨ b.department = none) :
    (putEmployee db s b).1.status = 400 ∧ (putEmployee db s b).2 = db := by
  have ht : (!(truthy b.name) || !(truthy b.email) || !(truthy b.department)) = true := by
    rcases h with h | h | h <;> simp [h, truthy]
  cases hp : parseIntJS s with
  | none => simp [putEmployee, hp]
  | some n => simp [putEmployee, hp, ht]

/-- Witness for C7: a body with no name gets 400 and the one-row table
is untouched. -/
theorem C7_witness :
    (putEmployee [pwRow] "1" ⟨none, some "a@x.com", some "Eng"⟩).1.status = 400 ∧
    (putEmployee [pwRow] "1" ⟨none, some "a@x.com", some "Eng"⟩).2 = [pwRow] :=
  C7_ok [pwRow] "1" ⟨none, some "a@x.com", some "Eng"⟩ (Or.inl rfl)

/-- Rows surviving a `DELETE ... WHERE id = n` never match a later
`WHERE id = n` lookup. -/
theorem filter_after_delete (db : List Employee) (n : Int) :
    (db.filter (fun e => !(e.id == n))).filter (fun e => e.id == n) = [] := by
  rw [List.filter_eq_nil_iff]
  intro a ha
  have := (List.mem_filter.mp ha).2
  simp at this
  simp [this]

/-- Claim C8: when `DELETE /employees/:id` succeeds with 200, a
subsequent `GET /employees/:id` on the resulting table with the same
id answers 404 — deletion is physical. -/
theorem C8_ok (db : List Employee) (s : String)
    (h : (deleteEmployee db s).1.status = 200) :
    (getEmployeeById (deleteEmployee db s).2 s).status = 404 := by
  cases hp : parseIntJS s with
  | none => simp [deleteEmployee, hp] at h
  | some n =>
    cases hf : db.filter (fun e => e.id == n) with
    | nil => simp [deleteEmployee, hp, hf] at h
    | cons r tl =>
      have hdb : (deleteEmployee db s).2 = db.filter (fun e => !(e.id == n)) := by
        simp [deleteEmployee, hp, hf]
      rw [hdb]
      simp [getEmployeeById, hp, filter_after_delete]

/-- Witness for C8: deleting the one stored row makes the follow-up
lookup answer 404. -/
theorem C8_witness :
    (getEmployeeById (deleteEmployee [pwRow] "1").2 "1").status = 404 :=
  C8_ok [pwRow] "1" (by decide)

/-- Claim C9: the auth variant of `GET /employees/:id` checks
existence before authorization: an id matching no row is answered 404
whatever the session state, while an existing id is answered 403 to a
requester who is neither an authenticated admin/manager nor the
employee themself — so the status reveals whether the id exists. -/
theorem C9_ok (db : List Employee) (st : AuthState) (s : String) (n : Int)
    (hp : parseIntJS s = some n) :
    (db.filter (fun e => e.id == n) = [] →
      getEmployeeByIdAuth db st s = ⟨404, .error "Employee not found"⟩) ∧
    (∀ e rest, db.filter (fun x => x.id == n) = e :: rest →
      (st.isAuthenticated &&
        st.user.any (fun u => u.role == some "admin" || u.role == some "manager")) = false →
      (st.isAuthenticated && st.user.any (fun u => u.employee_id == some n)) = false →
      getEmployeeByIdAuth db st s = ⟨403, .text "Forbidden"⟩) := by
  constructor
  · intro hf
    simp [getEmployeeByIdAuth, hp, hf]
  · intro e rest hf hrole hself
    simp [getEmployeeByIdAuth, hp, hf, hrole, hself]

/-- Witness for C9: an anonymous request for an existing id gets 403
(while the same request for an id absent from this table would have
gotten 404). -/
theorem C9_witness :
    getEmployeeByIdAuth [pwRow] ⟨false, none⟩ "1" = ⟨403, .text "Forbidden"⟩ :=
  (C9_ok [pwRow] ⟨false, none⟩ "1" 1 (by decide)).2 pwRow [] (by decide)
    rfl rfl

/-- Claim C10: the `:id` handlers reject a path parameter with 400
exactly when JavaScript `parseInt` of it is NaN (for PUT, once the
body fields are all truthy, so that the field check cannot also cause
a 400); `parseInt` keeps a numeric prefix, so "12abc" is accepted and
treated as id 12. -/
theorem C10_ok (db : List Employee) (s : String) (b : EmployeeBody)
    (h1 : truthy b.name = true) (h2 : truthy b.email = true)
    (h3 : truthy b.department = true) :
    ((getEmployeeById db s).status = 400 ↔ parseIntJS s = none) ∧
    ((putEmployee db s b).1.status = 400 ↔ parseIntJS s = none) ∧
    ((deleteEmployee db s).1.status = 400 ↔ parseIntJS s = none) ∧
    parseIntJS "12abc" = some 12 ∧
    (∀ db2 : List Employee, getEmployeeById db2 "12abc" = getEmployeeById db2 "12") := by
  have hb : (!(truthy b.name) || !(truthy b.email) || !(truthy b.department)) = false := by
    simp [h1, h2, h3]
  refine ⟨?_, ?_, ?_, by decide, ?_⟩
  · cases hp : parseIntJS s with
    | none => simp [getEmployeeById, hp]
    | some n =>
      cases hf : db.filter (fun e => e.id == n) <;>
        simp [getEmployeeById, hp, hf]
  · cases hp : parseIntJS s with
    | none => simp [putEmployee, hp]
    | some n =>
      cases hf : (db.filter (fun e => e.id == n)).map (applyUpdate b) <;>
        simp [putEmployee, hp, hf, hb]
  · cases hp : parseIntJS s with
    | none => simp [deleteEmployee, hp]
    | some n =>
      cases hf : db.filter (fun e => e.id == n) <;>
        simp [deleteEmployee, hp, hf]
  · intro db2
    have ha : parseIntJS "12abc" = some 12 := by decide
    have hc : parseIntJS "12" = some 12 := by decide
    rw [getEmployeeById, getEmployeeById, ha, hc]

/-- Witness for C10: on a one-row table the junk-suffixed parameter
"12abc" is not rejected; it behaves exactly like "12". -/
theorem C10_witness :
    ((getEmployeeById [pwRow] "12abc").status = 400 ↔ parseIntJS "12abc" = none) ∧
    parseIntJS "12abc" = some 12 :=
  ⟨(C10_ok [pwRow] "12abc" ⟨some "A", some "B", some "C"⟩
      rfl rfl rfl).1,
   (C10_ok [pwRow] "12abc" ⟨some "A", some "B", some "C"⟩
      rfl rfl rfl).2.2.2.1⟩

end EmpApp
